import Mathlib

/-!
# Verification of `scanoss/threadedwinnowing.py` (`ThreadedWinnowing`)

Shallow embedding of the concurrent dispatch-and-collection engine in
`src/src/scanoss/threadedwinnowing.py` and proofs about the claims of its
specification.

Modelling conventions:

* A Python value that is either a string or `None` is `Option String`
  (`none` = Python `None`).
* `queue.Queue` is a FIFO list (head = front) plus the `unfinished_tasks`
  counter that `put` increments and `task_done` decrements; `join()` blocks
  until that counter is zero.
* Exceptions become `Except` values; a computation that can block forever
  returns `Option` (`none` = never returns).
* The worker pool is modelled by sequential interleaving of whole-task
  processing steps: each dequeued task is processed atomically by one worker.
  The observables the claims talk about (error flag, stop events, queue
  contents, output multiset size, counter values) are insensitive to the
  interleaving because every per-task update is guarded by the queue's or the
  progress lock's internal synchronisation and the flags are monotone.
-/

namespace ThreadedWinnowing

/-- Python truthiness of a string-or-`None` value: `None` and `''` are falsy,
every other string is truthy (used by `if file:` at line 240 and
`if wfps:` at line 230 of the source). -/
def pyTruthy : Option String → Bool
  | none => false
  | some s => s != ""

/-- Python `x is None or x == ''`, the admission test of `queue_add`
(line 153 of the source). -/
def isNoneOrEmpty : Option String → Bool
  | none => true
  | some s => s == ""

/-- `queue_add` (lines 148-156): a `None` or empty filename is logged with a
warning and dropped; any other file is `put` on the (unbounded, hence
never-blocking) input queue, which appends it at the tail.  Returns the new
queue contents together with whether the warning was printed. -/
def queue_add (inputs : List (Option String)) (file : Option String) :
    List (Option String) × Bool :=
  if isNoneOrEmpty file then (inputs, true)
  else (inputs ++ [file], false)

/-- `os.path.sep` on the POSIX platforms the tool targets. -/
def pathSep : String := "/"

/-- Python `str.endswith(suffix)`: the suffix check on the underlying
character sequence. -/
def pyEndsWith (s suffix : String) : Bool :=
  suffix.data.isSuffixOf s.data

/-- The Python exceptions our embedding distinguishes. -/
inductive PyError where
  /-- `AttributeError`, e.g. calling `.endswith` on `None`. -/
  | attributeError
  /-- any other exception raised inside a worker's task processing. -/
  | processingError
  deriving DecidableEq, Repr

/-- The `scan_dir_len` computation of `__init__` (line 68):
`len(scan_dir) if scan_dir.endswith(os.path.sep) else len(scan_dir) + 1`.
With `scan_dir = None`, `None.endswith` raises `AttributeError`; with a
string it is the length, plus one if the trailing separator is absent. -/
def scan_dir_len : Option String → Except PyError Nat
  | none => .error .attributeError
  | some s => .ok (if pyEndsWith s pathSep then s.length else s.length + 1)

/-! ## The worker loop `worker_post` (lines 214-245) -/

/-- The shared mutable state a worker thread operates on: the input queue
(contents plus the `unfinished_tasks` counter), the output queue, the progress
counter advanced via `update_bar(1)`, the `_errors` flag, the two events, and
whether this worker has left its `while` loop. -/
structure WorkerState where
  inputs : List (Option String)
  unfinished : Nat
  output : List String
  bar_count : Nat
  errors : Bool
  stop_event : Bool
  stop_winnowing : Bool
  exited : Bool
  deriving DecidableEq, Repr

/-- The injected fingerprinting capability, i.e. the outcome of the expression
`self.winnowing.wfp_for_file(file, self.strip_path(...))` (line 229) on a
given dequeued file: it either raises or returns a string-or-`None` payload. -/
def Fingerprint : Type := Option String → Except PyError (Option String)

/-- One iteration of the worker loop (lines 221-244):

* if `_stop_event` is set, the loop exits;
* if the queue is empty, `time.sleep(1)` and retry;
* otherwise `get` the head; if the capability returns a payload, store it on
  the output queue and `update_bar(1)` exactly when the payload is truthy
  (lines 230-232), then `task_done` (line 233);
* if the capability raises (lines 237-242): set `_errors`, call `task_done`
  only when `if file:` holds — i.e. only when the dequeued file is truthy —
  and set `_stop_winnowing`; the loop is not exited. -/
def worker_iter (wfp : Fingerprint) (st : WorkerState) : WorkerState :=
  if st.stop_event then { st with exited := true }
  else
    match st.inputs with
    | [] => st
    | file :: rest =>
      match wfp file with
      | .ok wfps =>
        let st₁ := { st with inputs := rest }
        let st₂ :=
          if pyTruthy wfps then
            { st₁ with output := st₁.output ++ [wfps.getD ""]
                       bar_count := st₁.bar_count + 1 }
          else st₁
        { st₂ with unfinished := st₂.unfinished - 1 }
      | .error _ =>
        { st with inputs := rest
                  errors := true
                  unfinished := if pyTruthy file then st.unfinished - 1 else st.unfinished
                  stop_winnowing := true }

/-- Iterate the worker loop `n` times. -/
def worker_drain (wfp : Fingerprint) : Nat → WorkerState → WorkerState
  | 0, st => st
  | n + 1, st => worker_drain wfp n (worker_iter wfp st)

/-- Whether the capability raises on a given file. -/
def raises (wfp : Fingerprint) (file : Option String) : Bool :=
  match wfp file with
  | .error _ => true
  | .ok _ => false

end ThreadedWinnowing

namespace ThreadedWinnowing

/-- A worker iteration with the stop event unset and a non-empty queue always
pops exactly the head, leaves the stop event unset, never exits the loop, and
ors the error flag with whether the head's processing raised. -/
theorem worker_iter_step (wfp : Fingerprint) (st : WorkerState)
    (file : Option String) (rest : List (Option String))
    (h : st.stop_event = false) (hq : st.inputs = file :: rest) :
    (worker_iter wfp st).inputs = rest ∧
    (worker_iter wfp st).stop_event = false ∧
    (worker_iter wfp st).exited = st.exited ∧
    (worker_iter wfp st).errors = (st.errors || raises wfp file) := by
  unfold worker_iter raises
  rw [h, hq]
  cases hw : wfp file with
  | ok wfps => by_cases ht : pyTruthy wfps = true <;> simp [hw, ht]
  | error e => simp [hw]

/-- Draining as many iterations as there are queued tasks empties the queue
and accumulates into `_errors` whether any queued task's processing raised. -/
theorem worker_drain_spec (wfp : Fingerprint) (st : WorkerState)
    (h : st.stop_event = false) :
    (worker_drain wfp st.inputs.length st).inputs = [] ∧
    (worker_drain wfp st.inputs.length st).errors
      = (st.errors || st.inputs.any (raises wfp)) := by
  obtain ⟨tasks, hts⟩ : ∃ l, st.inputs = l := ⟨st.inputs, rfl⟩
  induction tasks generalizing st with
  | nil => rw [hts]; simp [worker_drain, hts]
  | cons file rest ih =>
    rw [hts]
    obtain ⟨h1, h2, -, h4⟩ := worker_iter_step wfp st file rest h hts
    have := ih (worker_iter wfp st) h2 h1
    rw [h1] at this
    simp only [List.length_cons, worker_drain]
    refine ⟨this.1, ?_⟩
    rw [this.2, h4]
    simp [Bool.or_assoc]

/-- Outcome of one worker iteration when the capability raises on the
dequeued file: the error flag and abort signal are set, `task_done` runs only
behind `if file:` (line 240), and the loop is not exited. -/
theorem worker_iter_error (wfp : Fingerprint) (st : WorkerState)
    (file : Option String) (rest : List (Option String)) (e : PyError)
    (h : st.stop_event = false) (hq : st.inputs = file :: rest)
    (hw : wfp file = .error e) :
    worker_iter wfp st =
      { st with inputs := rest
                errors := true
                unfinished := if pyTruthy file then st.unfinished - 1 else st.unfinished
                stop_winnowing := true } := by
  simp [worker_iter, h, hq, hw]

/-- Outcome of one worker iteration when the capability returns a payload:
the payload is stored and the progress counter advanced exactly when it is
truthy, and `task_done` runs either way. -/
theorem worker_iter_ok (wfp : Fingerprint) (st : WorkerState)
    (file : Option String) (rest : List (Option String)) (wfps : Option String)
    (h : st.stop_event = false) (hq : st.inputs = file :: rest)
    (hw : wfp file = .ok wfps) :
    worker_iter wfp st =
      if pyTruthy wfps then
        { st with inputs := rest
                  output := st.output ++ [wfps.getD ""]
                  bar_count := st.bar_count + 1
                  unfinished := st.unfinished - 1 }
      else { st with inputs := rest, unfinished := st.unfinished - 1 } := by
  by_cases ht : pyTruthy wfps = true
  · simp [worker_iter, h, hq, hw, ht]
  · simp [worker_iter, h, hq, hw, ht]

/-- A capability that raises on every file. -/
def wfpAllFail : Fingerprint := fun _ => .error .processingError

/-- A capability returning the fixed payload `"w"` on every file. -/
def wfpConstW : Fingerprint := fun _ => .ok (some "w")

end ThreadedWinnowing

namespace ThreadedWinnowing

/-! ## Claim C3: the worker's error path -/

/-- The worker state just before a worker dequeues an empty-string task (the
worker explicitly anticipates such tasks at lines 227-228). -/
def emptyTaskState : WorkerState :=
  { inputs := [some ""], unfinished := 1, output := [], bar_count := 0,
    errors := false, stop_event := false, stop_winnowing := false,
    exited := false }

/-- **C3 (counterexample).** When the dequeued task is the empty string and
its processing raises, the error path's `if file:` (line 240) is falsy, so
`task_done` is NOT called for the held task: `unfinished` stays `1` instead of
dropping to `0` as the claim requires (the error flag and abort signal are
still set). -/
theorem worker_error_empty_task_skips_task_done :
    (worker_iter wfpAllFail emptyTaskState).errors = true ∧
    (worker_iter wfpAllFail emptyTaskState).stop_winnowing = true ∧
    (worker_iter wfpAllFail emptyTaskState).inputs = [] ∧
    (worker_iter wfpAllFail emptyTaskState).unfinished = 1 ∧
    (worker_iter wfpAllFail emptyTaskState).unfinished ≠
      emptyTaskState.unfinished - 1 := by
  decide

/-- **C3 (amended).** For every dequeued truthy (non-`None`, non-empty) task
whose fingerprinting invocation raises, the worker records the failure in the
pool-level `_errors` flag, sets `_stop_winnowing`, still calls `task_done` for
the held task, and does not exit its loop — draining as many further
iterations as there are remaining tasks still empties the queue.  (For a
`None`/empty dequeued task, `if file:` skips the `task_done`.) -/
theorem worker_error_path (wfp : Fingerprint) (st : WorkerState)
    (file : Option String) (rest : List (Option String))
    (h : st.stop_event = false) (hq : st.inputs = file :: rest)
    (hr : raises wfp file = true) (ht : pyTruthy file = true) :
    (worker_iter wfp st).errors = true ∧
    (worker_iter wfp st).stop_winnowing = true ∧
    (worker_iter wfp st).exited = st.exited ∧
    (worker_iter wfp st).inputs = rest ∧
    (worker_iter wfp st).unfinished = st.unfinished - 1 ∧
    (worker_drain wfp rest.length (worker_iter wfp st)).inputs = [] := by
  obtain ⟨h1, h2, h3, -⟩ := worker_iter_step wfp st file rest h hq
  have hdrain := (worker_drain_spec wfp (worker_iter wfp st) h2).1
  rw [h1] at hdrain
  cases hw : wfp file with
  | ok wfps => rw [raises, hw] at hr; cases hr
  | error e =>
    rw [worker_iter_error wfp st file rest e h hq hw] at *
    exact ⟨rfl, rfl, rfl, rfl, by rw [ht]; simp, hdrain⟩

/-- Witness for C3 (amended): a concrete raising run on the truthy task
`"a.c"` followed by one remaining task. -/
theorem worker_error_path_witness :
    (worker_iter wfpAllFail
      { inputs := [some "a.c", some "b.c"], unfinished := 2, output := [],
        bar_count := 0, errors := false, stop_event := false,
        stop_winnowing := false, exited := false }).errors = true ∧
    (worker_iter wfpAllFail
      { inputs := [some "a.c", some "b.c"], unfinished := 2, output := [],
        bar_count := 0, errors := false, stop_event := false,
        stop_winnowing := false, exited := false }).stop_winnowing = true ∧
    (worker_iter wfpAllFail
      { inputs := [some "a.c", some "b.c"], unfinished := 2, output := [],
        bar_count := 0, errors := false, stop_event := false,
        stop_winnowing := false, exited := false }).exited = false ∧
    (worker_iter wfpAllFail
      { inputs := [some "a.c", some "b.c"], unfinished := 2, output := [],
        bar_count := 0, errors := false, stop_event := false,
        stop_winnowing := false, exited := false }).inputs = [some "b.c"] ∧
    (worker_iter wfpAllFail
      { inputs := [some "a.c", some "b.c"], unfinished := 2, output := [],
        bar_count := 0, errors := false, stop_event := false,
        stop_winnowing := false, exited := false }).unfinished = 2 - 1 ∧
    (worker_drain wfpAllFail [some "b.c"].length (worker_iter wfpAllFail
      { inputs := [some "a.c", some "b.c"], unfinished := 2, output := [],
        bar_count := 0, errors := false, stop_event := false,
        stop_winnowing := false, exited := false })).inputs = [] :=
  worker_error_path wfpAllFail
    { inputs := [some "a.c", some "b.c"], unfinished := 2, output := [],
      bar_count := 0, errors := false, stop_event := false,
      stop_winnowing := false, exited := false }
    (some "a.c") [some "b.c"] rfl rfl (by decide) (by decide)

/-! ## Claim C7: storing results and advancing progress -/

/-- **C7.** For every dequeued task whose capability invocation returns, the
worker appends the payload to the output queue and advances the progress
counter by exactly 1 if and only if the payload is non-empty (truthy); a
`None` or empty payload is never stored and does not advance progress;
`task_done` runs either way. -/
theorem worker_output_iff_truthy (wfp : Fingerprint) (st : WorkerState)
    (file : Option String) (rest : List (Option String)) (wfps : Option String)
    (h : st.stop_event = false) (hq : st.inputs = file :: rest)
    (hw : wfp file = .ok wfps) :
    ((worker_iter wfp st).output = st.output ++ [wfps.getD ""] ∧
      (worker_iter wfp st).bar_count = st.bar_count + 1 ↔
      pyTruthy wfps = true) ∧
    (pyTruthy wfps = false →
      (worker_iter wfp st).output = st.output ∧
      (worker_iter wfp st).bar_count = st.bar_count) ∧
    (worker_iter wfp st).unfinished = st.unfinished - 1 := by
  rw [worker_iter_ok wfp st file rest wfps h hq hw]
  by_cases ht : pyTruthy wfps = true
  · simp [ht]
  · have ht' : pyTruthy wfps = false := by
      revert ht; cases pyTruthy wfps <;> simp
    simp [ht']

/-- Witness for C7: a concrete truthy payload is stored and counted, a
concrete empty payload is not. -/
theorem worker_output_iff_truthy_witness :
    ((worker_iter wfpConstW
      { inputs := [some "a.c"], unfinished := 1, output := [], bar_count := 0,
        errors := false, stop_event := false, stop_winnowing := false,
        exited := false }).output = [] ++ [(some "w").getD ""] ∧
      (worker_iter wfpConstW
      { inputs := [some "a.c"], unfinished := 1, output := [], bar_count := 0,
        errors := false, stop_event := false, stop_winnowing := false,
        exited := false }).bar_count = 0 + 1 ↔ pyTruthy (some "w") = true) ∧
    (pyTruthy (some "w") = false →
      (worker_iter wfpConstW
      { inputs := [some "a.c"], unfinished := 1, output := [], bar_count := 0,
        errors := false, stop_event := false, stop_winnowing := false,
        exited := false }).output = [] ∧
      (worker_iter wfpConstW
      { inputs := [some "a.c"], unfinished := 1, output := [], bar_count := 0,
        errors := false, stop_event := false, stop_winnowing := false,
        exited := false }).bar_count = 0) ∧
    (worker_iter wfpConstW
      { inputs := [some "a.c"], unfinished := 1, output := [], bar_count := 0,
        errors := false, stop_event := false, stop_winnowing := false,
        exited := false }).unfinished = 1 - 1 :=
  worker_output_iff_truthy wfpConstW
    { inputs := [some "a.c"], unfinished := 1, output := [], bar_count := 0,
      errors := false, stop_event := false, stop_winnowing := false,
      exited := false }
    (some "a.c") [] (some "w") rfl rfl rfl

/-! ## Claim C5: the return value of `run(wait=True)` -/

/-- `run(wait=True)` (lines 175-197) followed by the workers draining the
queue: the initial state holds the enqueued tasks with `unfinished` equal to
the number of `put` calls; a startup (thread-spawning) failure sets `_errors`
(lines 192-194); the pool processes every task; `complete()` first blocks on
`inputs.join()` (line 203), which returns only once `unfinished` is zero —
`none` models blocking forever — and its join loop cannot change `_errors`
(see `complete_model` below); finally the status is
`False if self._errors else True` (line 197). -/
def run_wait (wfp : Fingerprint) (spawn_ok : Bool)
    (tasks : List (Option String)) : Option Bool :=
  let st₀ : WorkerState :=
    { inputs := tasks, unfinished := tasks.length, output := [], bar_count := 0,
      errors := !spawn_ok, stop_event := false, stop_winnowing := false,
      exited := false }
  let st₁ := worker_drain wfp tasks.length st₀
  if st₁.unfinished ≠ 0 then none else some (!st₁.errors)

/-- **C5 (counterexample).** A run whose thread spawning succeeds does NOT
return `true` regardless of what happens afterwards: with one task whose
processing raises, `run(wait=True)` returns `false`. -/
theorem run_wait_false_after_clean_startup :
    run_wait wfpAllFail true [some "a.c"] = some false ∧
    run_wait wfpAllFail true [some "a.c"] ≠ some true := by
  decide

/-- **C5 (amended).** Whenever `run(wait=True)` returns, it returns `true` iff
no error was recorded during startup (thread spawning) AND no task's
fingerprinting invocation raised during processing; join timeouts in
`complete()` contribute nothing. -/
theorem run_wait_spec (wfp : Fingerprint) (spawn_ok : Bool)
    (tasks : List (Option String)) (b : Bool)
    (h : run_wait wfp spawn_ok tasks = some b) :
    b = true ↔ spawn_ok = true ∧ tasks.any (raises wfp) = false := by
  have hdrain := worker_drain_spec wfp
    { inputs := tasks, unfinished := tasks.length, output := [], bar_count := 0,
      errors := !spawn_ok, stop_event := false, stop_winnowing := false,
      exited := false } rfl
  unfold run_wait at h
  dsimp only at h
  split at h
  · cases h
  · rw [Option.some.injEq] at h
    rw [← h, hdrain.2]
    cases spawn_ok <;> cases hany : tasks.any (raises wfp) <;> simp_all

/-- Witness for C5 (amended) at a concrete clean run of one task. -/
theorem run_wait_spec_witness :
    true = true ↔ true = true ∧ [some "a.c"].any (raises wfpConstW) = false :=
  run_wait_spec wfpConstW true [some "a.c"] true (by decide)

end ThreadedWinnowing

namespace ThreadedWinnowing

/-! ## Claim C8: admission into the input queue -/

/-- **C8.** `queue_add(file)` with `file` equal to `None` or the empty string
logs a warning and leaves the input queue unchanged; for every other string it
appends the task at the tail of the queue (and, the queue being unbounded,
never blocks the caller). -/
theorem queue_add_spec (inputs : List (Option String)) (s : String)
    (hs : s ≠ "") :
    queue_add inputs none = (inputs, true) ∧
    queue_add inputs (some "") = (inputs, true) ∧
    queue_add inputs (some s) = (inputs ++ [some s], false) := by
  refine ⟨rfl, rfl, ?_⟩
  simp [queue_add, isNoneOrEmpty, hs]

/-- Witness for C8 at a concrete filename. -/
theorem queue_add_spec_witness :
    queue_add [] none = ([], true) ∧
    queue_add [] (some "") = ([], true) ∧
    queue_add [] (some "a.c") = ([some "a.c"], false) :=
  queue_add_spec [] "a.c" (by decide)

/-! ## Claim C10: the constructor's `scan_dir_len` computation -/

/-- **C10.** Constructing with `scan_dir = None` raises (the `scan_dir_len`
computation calls `.endswith` on `None`), so `__init__` never completes; for a
string `scan_dir` the computation succeeds, yielding `len(scan_dir)` when
`scan_dir` ends with the path separator and `len(scan_dir) + 1` otherwise. -/
theorem scan_dir_len_spec (s : String) :
    scan_dir_len none = .error .attributeError ∧
    ∃ n, scan_dir_len (some s) = .ok n ∧
      (pathSep.data <:+ s.data → n = s.length) ∧
      (¬ pathSep.data <:+ s.data → n = s.length + 1) := by
  refine ⟨rfl, ?_⟩
  by_cases h : pathSep.data <:+ s.data
  · exact ⟨s.length, by simp [scan_dir_len, pyEndsWith, List.isSuffixOf_iff_suffix, h],
      fun _ => rfl, fun hc => absurd h hc⟩
  · exact ⟨s.length + 1, by simp [scan_dir_len, pyEndsWith, List.isSuffixOf_iff_suffix, h],
      fun hc => absurd hc h, fun _ => rfl⟩

/-! ## Thread-pool sizing (claim C2) -/

/-- `MAX_ALLOWED_THREADS` (lines 39-40): the value of the
`SCANOSS_MAX_ALLOWED_THREADS` environment variable when set, else `30`.
We model the default configuration.  `nb_threads` is a Python `int`, so the
sizing arithmetic lives in `Int`. -/
def MAX_ALLOWED_THREADS : Int := 30

/-- The clamp in `__init__` (lines 76-78): if the requested count exceeds
`MAX_ALLOWED_THREADS`, print a warning and reduce it.  Returns the stored
`nb_threads` and whether the warning was printed. -/
def init_nb_threads (nb_threads : Int) : Int × Bool :=
  if nb_threads > MAX_ALLOWED_THREADS then (MAX_ALLOWED_THREADS, true)
  else (nb_threads, false)

/-- The shrink in `run` (lines 180-184): if the input-queue size at the start
of the run is below `nb_threads`, reduce `nb_threads` to the queue size. -/
def run_nb_threads (nb_threads : Int) (qsize : Nat) : Int :=
  if (qsize : Int) < nb_threads then qsize else nb_threads

/-- The number of worker threads the loop
`for i in range(0, self.nb_threads)` (line 188) spawns: `range(0, n)` has
`max 0 n` elements, i.e. `Int.toNat n`. -/
def spawned_threads (nb_threads : Int) (qsize : Nat) : Nat :=
  (run_nb_threads (init_nb_threads nb_threads).1 qsize).toNat

/-- **C2 (counterexample).** The claim "the number of worker threads spawned
never exceeds min(nb_threads, MAX_ALLOWED_THREADS, pending task count)" fails
for the `int` input `nb_threads = -1` with an empty queue: `range(0, -1)`
spawns `0` threads while the claimed bound is `min(-1, 30, 0) = -1`. -/
theorem spawned_threads_cex :
    spawned_threads (-1) 0 = 0 ∧
    ¬ ((spawned_threads (-1) 0 : Int) ≤
        min (-1) (min MAX_ALLOWED_THREADS ((0 : Nat) : Int))) := by
  decide

/-- **C2 (amended).** For every requested `int` thread count and initial
queue size: the number of spawned threads is `toNat (min nb_threads
(min MAX_ALLOWED_THREADS qsize))` — in particular it never exceeds that `min`
whenever `nb_threads ≥ 0`; the warning is printed exactly when
`nb_threads > MAX_ALLOWED_THREADS`; and when the initial pending count is
below the clamped count the spawn count shrinks to the pending count. -/
theorem spawned_threads_spec (nb_threads : Int) (qsize : Nat) :
    spawned_threads nb_threads qsize
        = (min nb_threads (min MAX_ALLOWED_THREADS (qsize : Int))).toNat ∧
    ((init_nb_threads nb_threads).2 = true ↔ nb_threads > MAX_ALLOWED_THREADS) ∧
    (0 ≤ nb_threads →
      (spawned_threads nb_threads qsize : Int)
        ≤ min nb_threads (min MAX_ALLOWED_THREADS (qsize : Int))) ∧
    ((qsize : Int) < (init_nb_threads nb_threads).1 →
      spawned_threads nb_threads qsize = qsize) := by
  unfold spawned_threads run_nb_threads init_nb_threads MAX_ALLOWED_THREADS
  refine ⟨?_, ?_, ?_, ?_⟩ <;> split_ifs <;> simp_all <;> omega

/-- Witness for C2 (amended) at `nb_threads = 50`, `qsize = 10`: the spawn
count is bounded by `min(50, 30, 10) = 10`. -/
theorem spawned_threads_spec_witness :
    (spawned_threads 50 10 : Int) ≤ min 50 (min MAX_ALLOWED_THREADS ((10 : Nat) : Int)) :=
  (spawned_threads_spec 50 10).2.2.1 (by decide)

/-! ## Class-attribute queues (claim C1)

The dataclass field defaults `inputs: queue.Queue = queue.Queue()` and
`output: queue.Queue = queue.Queue()` (lines 50-51) are evaluated once, when
the class body is executed, and stored on the class object.  Because the class
defines its own `__init__` (lines 55-78), `@dataclass` does not install a
generated one (`dataclasses._set_new_attribute` never overwrites an attribute
already present in the class body), and that `__init__` assigns neither
`self.inputs` nor `self.output`; no other statement in the file assigns them
either.  Python attribute lookup on an instance therefore falls through to the
class attribute: all instances read and mutate the same two queue objects. -/

/-- The class-level state: the two queues created when the class body runs. -/
structure TWClass where
  inputs : List (Option String)
  output : List String
  deriving DecidableEq, Repr

/-- Evaluating the class body (lines 43-53): both queues are created empty. -/
def twClassInit : TWClass := { inputs := [], output := [] }

/-- The per-instance attributes: exactly the `self.x = ...` assignments the
hand-written `__init__` performs (lines 64-78).  `inputs`/`output` are not
among them. -/
structure TWInstance where
  nb_threads : Int
  scan_dir : String
  scan_dir_len : Nat
  bar_count : Nat
  errors : Bool
  stop_event : Bool
  stop_winnowing : Bool
  deriving DecidableEq, Repr

/-- `__init__` (lines 55-78) for a string `scan_dir`: builds the instance
dictionary and leaves the class-level queues untouched. -/
def twInit (cls : TWClass) (nb_threads : Int) (scan_dir : String) :
    TWClass × TWInstance :=
  (cls,
   { nb_threads := (init_nb_threads nb_threads).1
     scan_dir := scan_dir
     scan_dir_len :=
       if pyEndsWith scan_dir pathSep then scan_dir.length else scan_dir.length + 1
     bar_count := 0
     errors := false
     stop_event := false
     stop_winnowing := false })

/-- Attribute lookup for `self.inputs`: absent from the instance dictionary,
it resolves to the class attribute, the same object for every instance. -/
def instInputs (cls : TWClass) (_inst : TWInstance) : List (Option String) :=
  cls.inputs

/-- `queue_add` (lines 148-156) invoked on an instance: mutates the queue that
`self.inputs` resolves to, i.e. the class-level one. -/
def inst_queue_add (cls : TWClass) (inst : TWInstance) (file : Option String) :
    TWClass :=
  { cls with inputs := (queue_add (instInputs cls inst) file).1 }

/-- `get_queue_size` (lines 158-159) invoked on an instance. -/
def inst_get_queue_size (cls : TWClass) (inst : TWInstance) : Nat :=
  (instInputs cls inst).length

/-- Construct instance `a`, enqueue one file through it, then construct
instance `b` and read `b`'s queue size. -/
def twoInstanceScenario : Nat :=
  let cls₀ := twClassInit
  let p₁ := twInit cls₀ 5 "/tmp"
  let cls₂ := inst_queue_add p₁.1 p₁.2 (some "f.c")
  let p₃ := twInit cls₂ 5 "/tmp"
  inst_get_queue_size p₃.1 p₃.2

/-- **C1 (code bug).** Two freshly constructed `ThreadedWinnowing` instances
do NOT have distinct, initially empty queues: a task enqueued through the
first instance is visible through the second, whose queue size reads `1`
instead of the `0` the claim requires. -/
theorem shared_queue_between_instances :
    twoInstanceScenario = 1 ∧ twoInstanceScenario ≠ 0 := by
  decide

/-! ## The termination protocol `complete()` (lines 199-212): claims C4, C6 -/

/-- State for the termination protocol.  `unfinished` is the input queue's
outstanding-task counter that `inputs.join()` (line 203) blocks on;
`threads_join_in_time` records, for each spawned worker thread, whether it
terminates within the 5-second timeout of `t.join(timeout=5)` (line 207);
`join_calls` counts the `t.join` invocations performed and
`bar_finish_calls` the `bar.finish()` calls — the observables for the
idempotence claim. -/
structure PoolState where
  unfinished : Nat
  stop_event : Bool
  errors : Bool
  threads_join_in_time : List Bool
  join_calls : Nat
  bar_set : Bool
  bar_finish_calls : Nat
  deriving DecidableEq, Repr

/-- `complete()` (lines 199-212).  `inputs.join()` returns once `unfinished`
is zero (`none` models its blocking forever).  Then `_stop_event` is set and
each spawned thread is joined with `t.join(timeout=5)`.  Python's
`Thread.join(timeout)` returns `None` whether or not the thread terminated
within the timeout, and raises only when joining a not-yet-started thread or
the current thread — neither occurs here — so the `except` branch
(lines 208-210) never executes: the per-thread outcome recorded in
`threads_join_in_time` is discarded, `_errors` is not touched and no warning
is printed.  Finally `complete_bar()` calls `bar.finish()` when a bar is set,
and the returned status is `False if self._errors else True` (line 212). -/
def complete_model (st : PoolState) : Option (PoolState × Bool) :=
  if st.unfinished ≠ 0 then none
  else
    let st₁ := { st with stop_event := true }
    let st₂ :=
      { st₁ with join_calls := st₁.join_calls + st₁.threads_join_in_time.length }
    let st₃ :=
      if st₂.bar_set then { st₂ with bar_finish_calls := st₂.bar_finish_calls + 1 }
      else st₂
    some (st₃, !st₃.errors)

/-- The final status a `complete()` outcome reports. -/
def completeStatus (r : Option (PoolState × Bool)) : Option Bool :=
  r.map fun p => p.2

/-- The `_errors` flag after a `complete()` outcome. -/
def completeErrors (r : Option (PoolState × Bool)) : Option Bool :=
  r.map fun p => p.1.errors

/-- The number of `t.join` invocations performed after a `complete()`
outcome. -/
def completeJoinCalls (r : Option (PoolState × Bool)) : Option Nat :=
  r.map fun p => p.1.join_calls

/-- The number of `bar.finish()` invocations performed after a `complete()`
outcome. -/
def completeBarFinishes (r : Option (PoolState × Bool)) : Option Nat :=
  r.map fun p => p.1.bar_finish_calls

/-- The pool state at the end of a drained run whose single worker thread
fails to terminate within the 5-second join timeout. -/
def hungThreadState : PoolState :=
  { unfinished := 0, stop_event := false, errors := false,
    threads_join_in_time := [false], join_calls := 0, bar_set := false,
    bar_finish_calls := 0 }

/-- **C4 (code bug).** A worker that fails to terminate within its per-thread
join timeout is silent: `Thread.join(timeout)` simply returns on timeout, so
the `except` branch of `complete()` cannot run — `_errors` stays `false`,
nothing is logged, and `complete()` (hence a waiting `run()`) returns `true`,
where the claim requires the failure to be logged, the run marked `hadErrors`
and `false` returned. -/
theorem complete_ignores_join_timeout :
    completeErrors (complete_model hungThreadState) = some false ∧
    completeStatus (complete_model hungThreadState) = some true := by
  decide

/-- The pool state at the end of a clean, fully drained two-thread run with a
progress bar set, just before the first `complete()` call. -/
def cleanPoolState : PoolState :=
  { unfinished := 0, stop_event := false, errors := false,
    threads_join_in_time := [true, true], join_calls := 0, bar_set := true,
    bar_finish_calls := 0 }

/-- Two consecutive `complete()` calls. -/
def complete_twice (st : PoolState) : Option (PoolState × Bool) :=
  (complete_model st).bind fun p => complete_model p.1

/-- **C6 (counterexample).** A second `complete()` call is not a cached
no-op: on a clean drained two-thread run the first call performs 2 thread
joins and 1 `bar.finish()`, and the second call performs them again
(4 joins, 2 finishes in total) — it does re-join the worker threads and does
perform further work, contrary to the claim. -/
theorem complete_second_call_rejoins :
    completeJoinCalls (complete_model cleanPoolState) = some 2 ∧
    completeBarFinishes (complete_model cleanPoolState) = some 1 ∧
    completeJoinCalls (complete_twice cleanPoolState) = some 4 ∧
    completeBarFinishes (complete_twice cleanPoolState) = some 2 := by
  decide

/-- **C6 (amended).** Calling `complete()` a second time after it has
returned does not deadlock (the queue is still drained, so it returns), does
not raise, and returns the same status as the first call; but the status is
recomputed, not cached, and the body re-executes: the second call performs
the per-thread join loop (and the bar finish) again. -/
theorem complete_idempotent_status (st st₁ : PoolState) (b : Bool)
    (h : complete_model st = some (st₁, b)) :
    completeStatus (complete_model st₁) = some b ∧
    completeErrors (complete_model st₁) = some st₁.errors ∧
    completeJoinCalls (complete_model st₁)
      = some (st₁.join_calls + st₁.threads_join_in_time.length) := by
  obtain ⟨u, se, er, th, jc, bs, bf⟩ := st
  unfold complete_model at h
  by_cases hu : u ≠ 0
  · simp [hu] at h
  · have hu0 : u = 0 := by omega
    subst hu0
    cases bs <;>
      simp only [if_false, if_true, ite_false, ite_true, reduceIte,
        Option.some.injEq, Prod.mk.injEq, ne_eq, not_true_eq_false,
        not_false_eq_true] at h <;>
      obtain ⟨hst, hb⟩ := h <;>
      subst hst <;>
      simp [complete_model, completeStatus, completeErrors, completeJoinCalls,
        ← hb]

/-- The state the first `complete()` call on `cleanPoolState` leaves behind. -/
def cleanPoolStateAfter : PoolState :=
  { unfinished := 0, stop_event := true, errors := false,
    threads_join_in_time := [true, true], join_calls := 2, bar_set := true,
    bar_finish_calls := 1 }

/-- Witness for C6 (amended): the second `complete()` call on the concrete
post-first-call state of the clean two-thread run. -/
theorem complete_idempotent_status_witness :
    completeStatus (complete_model cleanPoolStateAfter) = some true ∧
    completeErrors (complete_model cleanPoolStateAfter)
      = some cleanPoolStateAfter.errors ∧
    completeJoinCalls (complete_model cleanPoolStateAfter)
      = some (cleanPoolStateAfter.join_calls
          + cleanPoolStateAfter.threads_join_in_time.length) :=
  complete_idempotent_status cleanPoolState cleanPoolStateAfter true (by decide)

/-! ## The progress bar (claim C9) -/

/-- The visible progress bar: how far it has been advanced (the accumulated
`bar.next` amounts) and the `max` it was created with. -/
structure BarView where
  progress : Nat
  total : Nat
  deriving DecidableEq, Repr

/-- The state `create_bar`/`update_bar` operate on. -/
structure ProgressState where
  quiet : Bool
  isatty : Bool
  bar : Option BarView
  bar_count : Nat
  deriving DecidableEq, Repr

/-- `create_bar` (lines 80-83): outside quiet mode, on an interactive stderr
and with no bar yet, create the bar and immediately advance it by
`self._bar_count`. -/
def create_bar (st : ProgressState) (file_count : Nat) : ProgressState :=
  if !st.quiet && st.isatty && st.bar.isNone then
    { st with bar := some { progress := st.bar_count, total := file_count } }
  else st

/-- `update_bar` (lines 96-114), under the lock: if `create` is requested and
no bar exists, `create_bar`; otherwise, if a bar exists, advance it by
`amount`; in every case `self._bar_count += amount` afterwards. -/
def update_bar (st : ProgressState) (amount : Nat) (create : Bool)
    (file_count : Nat) : ProgressState :=
  let st₁ :=
    if create && st.bar.isNone then create_bar st file_count
    else
      match st.bar with
      | some b => { st with bar := some { b with progress := b.progress + amount } }
      | none => st
  { st₁ with bar_count := st₁.bar_count + amount }

/-- One recorded `update_bar` call: `(amount, create, file_count)`. -/
def BarCall : Type := Nat × Bool × Nat

/-- Replay a sequence of `update_bar` calls. -/
def update_bar_calls (st : ProgressState) (calls : List BarCall) : ProgressState :=
  calls.foldl (fun s c => update_bar s c.1 c.2.1 c.2.2) st

/-- Every `update_bar` call adds exactly its amount to `_bar_count`,
whatever branch runs. -/
theorem update_bar_count (st : ProgressState) (amount : Nat) (create : Bool)
    (file_count : Nat) :
    (update_bar st amount create file_count).bar_count = st.bar_count + amount := by
  unfold update_bar create_bar
  split
  · split <;> rfl
  · cases st.bar <;> rfl

/-- **C9.** Invariant kept by every sequence of `update_bar` calls: the
internal `_bar_count` always equals its initial value plus the sum of all
amounts passed so far — also when no bar ever exists (quiet mode,
non-interactive stderr, or not yet created) — and `create_bar`, when it fires
(non-quiet, interactive, no bar yet), initializes the newly created bar
already advanced by the current `_bar_count`, so a bar created after work
began reflects all previously completed tasks. -/
theorem update_bar_invariant (st : ProgressState) (calls : List BarCall)
    (file_count : Nat) (hq : st.quiet = false) (ht : st.isatty = true)
    (hb : st.bar = none) :
    (update_bar_calls st calls).bar_count
      = st.bar_count + (calls.map fun c => c.1).sum ∧
    (create_bar st file_count).bar
      = some { progress := st.bar_count, total := file_count } := by
  constructor
  · clear hq ht hb
    induction calls generalizing st with
    | nil => simp [update_bar_calls]
    | cons c cs ih =>
      have := ih (update_bar st c.1 c.2.1 c.2.2)
      simp only [update_bar_calls, List.foldl_cons] at this ⊢
      rw [this, update_bar_count, List.map_cons, List.sum_cons, Nat.add_assoc]
  · simp [create_bar, hq, ht, hb]

/-- Witness for C9: two completed tasks counted bar-less, then a creating
call — the new bar starts already advanced by 2. -/
theorem update_bar_invariant_witness :
    (update_bar_calls
      { quiet := false, isatty := true, bar := none, bar_count := 0 }
      [(1, false, 0), (1, false, 0)]).bar_count
      = ({ quiet := false, isatty := true, bar := none, bar_count := 0 } :
          ProgressState).bar_count
        + (([(1, false, 0), (1, false, 0)] : List BarCall).map fun c => c.1).sum ∧
    (create_bar { quiet := false, isatty := true, bar := none, bar_count := 0 }
        10).bar
      = some { progress :=
          ({ quiet := false, isatty := true, bar := none, bar_count := 0 } :
            ProgressState).bar_count, total := 10 } :=
  update_bar_invariant
    { quiet := false, isatty := true, bar := none, bar_count := 0 }
    [(1, false, 0), (1, false, 0)] 10 rfl rfl rfl

/-- Witness for C10 at the concrete directories `"/tmp/"` and `"/tmp"`. -/
theorem scan_dir_len_spec_witness :
    scan_dir_len none = .error .attributeError ∧
    scan_dir_len (some "/tmp/") = .ok 5 ∧
    scan_dir_len (some "/tmp") = .ok 5 := by
  have h₁ := scan_dir_len_spec "/tmp/"
  have h₂ := scan_dir_len_spec "/tmp"
  refine ⟨h₁.1, ?_, ?_⟩
  · obtain ⟨n, hn, hyes, -⟩ := h₁.2
    have : n = 5 := hyes (by decide)
    simpa [this] using hn
  · obtain ⟨n, hn, -, hno⟩ := h₂.2
    have : n = 5 := hno (by decide)
    simpa [this] using hn

end ThreadedWinnowing
